import Mathlib

/-!
Verification of the paginated & streaming ledger resource client
(`exp/clients/horizon`) of the stellar `go` repository, against its
natural-language specification.

The repository snapshot under `src/` contains the test file
`exp/clients/horizon/ledger_request_test.go` and callers of the client
(`exp/txnbuild/cmd/demo`), but the implementation files of the client
(`ledger_request.go`, the `Client` methods and the error type) are not
among the source files.  The definitions below therefore model the
missing implementation from the specification, as noted in each doc
comment; the concrete URLs, response shapes and error messages are the
ones pinned down by the test file.
-/

set_option autoImplicit false

namespace HorizonClient

/-- A hypermedia link, mirroring `hal.Link` (only the `Href` field is
relevant to the client logic). -/
structure Link where
  Href : String
  deriving DecidableEq, Repr

/-- Navigation links of a collection response, mirroring the `Links`
struct of `hProtocol.LedgersPage` (relations `self`, `next`, `prev`). -/
structure PageLinks where
  Self : Link
  Next : Link
  Prev : Link
  deriving DecidableEq, Repr

/-- One ledger record, mirroring the fields of `hProtocol.Ledger` that the
client logic and its tests inspect: `id`, `paging_token` (field `PT`),
`sequence` and the optional `failed_transaction_count`. -/
structure Ledger where
  ID : String := ""
  PT : String := ""
  Sequence : Int := 0
  FailedTransactionCount : Option Int := none
  deriving DecidableEq, Repr

/-- The `_embedded` object of a collection response. -/
structure Embedded where
  Records : List Ledger
  deriving DecidableEq, Repr

/-- A collection envelope, mirroring `hProtocol.LedgersPage`: an ordered
record sequence plus the pagination links. -/
structure LedgersPage where
  Links : PageLinks
  Embedded : Embedded
  deriving DecidableEq, Repr

/-- A structured problem document, mirroring the error envelope consumed on
non-2xx responses (`type`, `title`, `status`, `detail`, `instance`).
`Type_` and `Instance_` carry a trailing underscore only because `Type`
and `instance` are Lean keywords. -/
structure Problem where
  Type_ : String := ""
  Title : String := ""
  Status : Nat := 0
  Detail : String := ""
  Instance_ : String := ""
  deriving DecidableEq, Repr

/-- Error taxonomy of the client, as a tagged variant with an explicit
discriminant so callers branch on the kind programmatically. -/
inductive HError where
  | invalidParameter (msg : String)
  | noMoreResults
  | serverError (status : Nat) (problem : Option Problem)
  | transportError (msg : String)
  deriving DecidableEq, Repr

/-- The ascending order constant (`OrderAsc Order = "asc"`). -/
def OrderAsc : String := "asc"

/-- The descending order constant (`OrderDesc Order = "desc"`). -/
def OrderDesc : String := "desc"

/-- The request descriptor for the ledger resource, mirroring
`LedgerRequest`: an optional instance identifier `forSequence` plus the
collection filters `Cursor`, `Order` and `Limit`.  The Go zero values
(`""`, `""`, `0`) mean "unset"; the instance identifier is optional and
distinct from the filters. -/
structure LedgerRequest where
  forSequence : Option Nat := none
  Cursor : String := ""
  Order : String := ""
  Limit : Nat := 0
  deriving DecidableEq, Repr

/-- Whether a query parameter name is explicitly set on a descriptor
(`"cursor"`, `"order"`, `"limit"`; unset means the Go zero value). -/
def paramSet (lr : LedgerRequest) : String → Bool
  | "cursor" => lr.Cursor != ""
  | "order" => lr.Order != ""
  | "limit" => lr.Limit != 0
  | _ => false

/-- The query parameters of a collection descriptor, emitted only for the
fields that are explicitly set, in the fixed order cursor, order, limit. -/
def queryParams (lr : LedgerRequest) : List (String × String) :=
  (if lr.Cursor = "" then [] else [("cursor", lr.Cursor)])
    ++ (if lr.Order = "" then [] else [("order", lr.Order)])
    ++ (if lr.Limit = 0 then [] else [("limit", toString lr.Limit)])

/-- Renders a parameter list as a `k=v&k=v` query string. -/
def renderParams : List (String × String) → String
  | [] => ""
  | [p] => p.1 ++ "=" ++ p.2
  | p :: q :: rest => p.1 ++ "=" ++ p.2 ++ "&" ++ renderParams (q :: rest)

/-- Appends a rendered query string to a base path, omitting the `?` when
no parameter is set. -/
def renderEndpoint (base : String) (ps : List (String × String)) : String :=
  if ps.isEmpty then base else base ++ "?" ++ renderParams ps

/-- Modelled from the spec: `LedgerRequest.BuildUrl`
(`exp/clients/horizon/ledger_request.go`, absent from `src/`).  No
parameter set gives the bare collection path `ledgers`; a non-zero
instance identifier gives `ledgers/{id}` and drops the collection
filters; a zero instance identifier fails with `InvalidParameter`
(message pinned by `TestLedgerDetail`); otherwise the set collection
filters are emitted in the fixed order cursor, order, limit. -/
def LedgerRequest.BuildUrl (lr : LedgerRequest) : Except HError String :=
  match lr.forSequence with
  | some n =>
    if n = 0 then .error (.invalidParameter "Invalid sequence number provided")
    else .ok ("ledgers/" ++ toString n)
  | none => .ok (renderEndpoint "ledgers" (queryParams lr))

/-- Splits a character list at the first `?`, returning the part before it
and the part after it (empty when there is no `?`). -/
def splitQueryAux : List Char → List Char → List Char × List Char
  | [], acc => (acc.reverse, [])
  | c :: rest, acc =>
    if c = '?' then (acc.reverse, rest) else splitQueryAux rest (c :: acc)

/-- Splits a character list on a separator character into strings. -/
def splitSepAux (sep : Char) : List Char → List Char → List String
  | [], acc => [String.mk acc.reverse]
  | c :: rest, acc =>
    if c = sep then String.mk acc.reverse :: splitSepAux sep rest []
    else splitSepAux sep rest (c :: acc)

/-- Parses a URL into its base part and its list of `k=v` query items. -/
def parseUrl (u : String) : String × List String :=
  let p := splitQueryAux u.data []
  (String.mk p.1, if p.2.isEmpty then [] else splitSepAux '&' p.2 [])

/-- Whether two query-item lists hold the same items, order apart. -/
def sameParams (x y : List String) : Bool :=
  x.length == y.length && x.all (y.contains ·) && y.all (x.contains ·)

/-- Whether a request URL matches a registered mock URL: either exactly, or
with the same base and the same query items in any order.  This mirrors
the mock transport used by the tests (`support/http/httptest`), which
matches query parameters irrespective of their order. -/
def urlMatches (pat u : String) : Bool :=
  pat == u
    || ((parseUrl pat).1 == (parseUrl u).1
          && sameParams (parseUrl pat).2 (parseUrl u).2)

/-- A response body, already deserialized: the transport and JSON decoding
are external collaborators, so bodies are modelled structurally. -/
inductive Body where
  | page (p : LedgersPage)
  | ledger (l : Ledger)
  | problem (p : Problem)
  | sse (frames : List Ledger)
  deriving DecidableEq, Repr

/-- One registered behaviour of the mock transport: an HTTP response with a
status and body, or a connection-level error. -/
inductive MockResp where
  | resp (status : Nat) (body : Body)
  | connErr (msg : String)
  deriving DecidableEq, Repr

/-- The mock transport's registration table: method, URL, behaviour. -/
def MockTable := List (String × String × MockResp)

/-- Executes one request against the mock transport table; an unmatched
request fails at the connection level, as with the real mock. -/
def lookup (table : MockTable) (method url : String) : MockResp :=
  match table.find? (fun e => e.1 == method && urlMatches e.2.1 url) with
  | some e => e.2.2
  | none => .connErr "no responder found"

deriving instance DecidableEq for Except

/-- The result of a client operation together with the list of
`(method, url)` network calls it issued. -/
structure Trace (α : Type) where
  calls : List (String × String)
  result : Except HError α
  deriving DecidableEq, Repr

/-- A client configuration: the base URL of the Horizon instance. -/
structure Client where
  HorizonURL : String
  deriving DecidableEq, Repr

/-- The process-wide default client pointing at the public test network
(`DefaultTestNetClient`). -/
def DefaultTestNetClient : Client :=
  { HorizonURL := "https://horizon-testnet.stellar.org/" }

/-- Whether an HTTP status is a success (2xx) status. -/
def isOkStatus (status : Nat) : Bool :=
  200 ≤ status && status < 300

/-- Decodes a problem document from a non-2xx response body, when the body
is one. -/
def decodeProblem : Body → Option Problem
  | .problem p => some p
  | _ => none

/-- Decodes a collection envelope from a response body; any other shape is
a transport-level unmarshalling failure. -/
def decodePage : Body → Except HError LedgersPage
  | .page p => .ok p
  | _ => .error (.transportError "json: cannot unmarshal ledgers page")

/-- Decodes a single ledger record from a response body. -/
def decodeLedger : Body → Except HError Ledger
  | .ledger l => .ok l
  | _ => .error (.transportError "json: cannot unmarshal ledger")

/-- Classifies one executed response: connection errors become
`transportError`, non-2xx responses become `serverError` carrying the
problem document when the body holds one, and 2xx bodies are decoded by
`decode`. -/
def classify {α : Type} (decode : Body → Except HError α) :
    MockResp → Except HError α
  | .connErr m => .error (.transportError m)
  | .resp status body =>
    if isOkStatus status then decode body
    else .error (.serverError status (decodeProblem body))

/-- Modelled from the spec: `Client.Ledgers` (absent from `src/`): builds
the collection URL from the descriptor, issues one GET against the
client's base URL and decodes the envelope. -/
def Client.Ledgers (c : Client) (table : MockTable) (lr : LedgerRequest) :
    Trace LedgersPage :=
  match lr.BuildUrl with
  | .error e => { calls := [], result := .error e }
  | .ok endpoint =>
    let url := c.HorizonURL ++ endpoint
    { calls := [("GET", url)],
      result := classify decodePage (lookup table "GET" url) }

/-- Modelled from the spec: `Client.LedgerDetail` (absent from `src/`):
builds the instance URL for the given sequence number and issues one GET;
the zero-identifier validation fails before any network call. -/
def Client.LedgerDetail (c : Client) (table : MockTable) (sequence : Nat) :
    Trace Ledger :=
  match LedgerRequest.BuildUrl { forSequence := some sequence } with
  | .error e => { calls := [], result := .error e }
  | .ok endpoint =>
    let url := c.HorizonURL ++ endpoint
    { calls := [("GET", url)],
      result := classify decodeLedger (lookup table "GET" url) }

/-- Modelled from the spec: the next-page descriptor (§4.2): the
`paging_token` of the last record becomes the cursor, the order is
ascending and the limit is carried over unchanged; an empty record
sequence fails with `NoMoreResults`. -/
def nextDescriptor (lr : LedgerRequest) (page : LedgersPage) :
    Except HError LedgerRequest :=
  match page.Embedded.Records.getLast? with
  | none => .error .noMoreResults
  | some r =>
    .ok { forSequence := none, Cursor := r.PT, Order := OrderAsc,
          Limit := lr.Limit }

/-- Modelled from the spec: the previous-page descriptor (§4.2): the
`paging_token` of the first record becomes the cursor, the order is
descending and the limit is carried over unchanged. -/
def prevDescriptor (lr : LedgerRequest) (page : LedgersPage) :
    Except HError LedgerRequest :=
  match page.Embedded.Records.head? with
  | none => .error .noMoreResults
  | some r =>
    .ok { forSequence := none, Cursor := r.PT, Order := OrderDesc,
          Limit := lr.Limit }

/-- Modelled from the spec: `LedgerRequest.Next` (§4.2 and the §9 note on
the global default client singleton pointing at the public test network).
The follow-up request is issued against the default test-network base
URL, not the supplied client's configured base URL, as pinned by
`TestLedgerRequestLedgers`, whose follow-up mocks are registered on
`https://horizon-testnet.stellar.org/` while the supplied client is
configured with `https://localhost/`. -/
def LedgerRequest.Next (lr : LedgerRequest) (page : LedgersPage)
    (client : Client) (table : MockTable) : Trace LedgersPage :=
  match nextDescriptor lr page with
  | .error e => { calls := [], result := .error e }
  | .ok d =>
    let _ := client
    Client.Ledgers DefaultTestNetClient table d

/-- Modelled from the spec: `LedgerRequest.Prev`, the descending
counterpart of `LedgerRequest.Next`. -/
def LedgerRequest.Prev (lr : LedgerRequest) (page : LedgersPage)
    (client : Client) (table : MockTable) : Trace LedgersPage :=
  match prevDescriptor lr page with
  | .error e => { calls := [], result := .error e }
  | .ok d =>
    let _ := client
    Client.Ledgers DefaultTestNetClient table d

/-- The read loop of a streaming subscription over the parsed frames of an
open connection.  The handler is invoked synchronously per frame and
returns `true` when it cancelled the context; cancellation is checked at
the next frame boundary and ends the loop with a nil error.  The end of
the frame sequence without cancellation is a mid-stream disconnect, a
transport failure.  The second component is the ordered list of records
the handler observed. -/
def streamLoop (handler : Ledger → Bool) :
    List Ledger → Except HError Unit × List Ledger
  | [] => (.error (.transportError "connection closed"), [])
  | f :: rest =>
    if handler f then (.ok (), [f])
    else
      let x := streamLoop handler rest
      (x.1, f :: x.2)

/-- Modelled from the spec: `Client.StreamLedgers` (§4.3, absent from
`src/`): an unset cursor is normalized to the sentinel `"now"`, the
collection URL is opened against the client's base URL, a non-2xx status
is a server-reported failure carrying the status before any handler
invocation, a connection error is a transport failure, and on success the
frames are delivered to the handler in arrival order by `streamLoop`. -/
def Client.StreamLedgers (c : Client) (table : MockTable)
    (lr : LedgerRequest) (handler : Ledger → Bool) :
    Except HError Unit × List Ledger :=
  let lr' := if lr.Cursor = "" then { lr with Cursor := "now" } else lr
  match lr'.BuildUrl with
  | .error e => (.error e, [])
  | .ok endpoint =>
    match lookup table "GET" (c.HorizonURL ++ endpoint) with
    | .connErr m => (.error (.transportError m), [])
    | .resp status body =>
      if isOkStatus status then
        match body with
        | .sse frames => streamLoop handler frames
        | _ => (.error (.transportError "invalid event stream"), [])
      else (.error (.serverError status (decodeProblem body)), [])

/-! Concrete fixtures from `ledger_request_test.go`: the deserialized
forms of `ledgersResponse`, `ledgersNextResponse`,
`ledgerStreamResponse`, and the mock registrations of the tests. -/

/-- The client the tests construct: base URL `https://localhost/`. -/
def localClient : Client := { HorizonURL := "https://localhost/" }

/-- The single record of `ledgersResponse`: sequence 1, paging token
`4294967296`. -/
def ledgerSeq1 : Ledger :=
  { ID := "63d98f536ee68d1b27b5b89f23af5311b7569a24faf1403ad0b52b633b07be99",
    PT := "4294967296", Sequence := 1, FailedTransactionCount := some 0 }

/-- The single record of `ledgersNextResponse`: sequence 2, paging token
`8589934592`. -/
def ledgerSeq2 : Ledger :=
  { ID := "1685117d8d2270aed3cf81b641087b4f8d8e2b0774b4bb82d1de34d9472fb3d5",
    PT := "8589934592", Sequence := 2, FailedTransactionCount := some 0 }

/-- The record carried by the one frame of `ledgerStreamResponse`:
sequence 560339. -/
def ledger560339 : Ledger :=
  { ID := "66f4d95dab22dbc422585cc4b011716014e81df3599cee8db9c776cfc3a31e93",
    PT := "2406637679673344", Sequence := 560339,
    FailedTransactionCount := some 1 }

/-- The deserialized `ledgersResponse` envelope. -/
def ledgersPage1 : LedgersPage :=
  { Links :=
      { Self := ⟨"https://horizon-testnet.stellar.org/ledgers?cursor=&limit=1&order=asc"⟩,
        Next := ⟨"https://horizon-testnet.stellar.org/ledgers?cursor=4294967296&limit=1&order=asc"⟩,
        Prev := ⟨"https://horizon-testnet.stellar.org/ledgers?cursor=4294967296&limit=1&order=desc"⟩ },
    Embedded := { Records := [ledgerSeq1] } }

/-- The deserialized `ledgersNextResponse` envelope. -/
def ledgersPage2 : LedgersPage :=
  { Links :=
      { Self := ⟨"https://horizon-testnet.stellar.org/ledgers?cursor=4294967296&limit=1&order=asc"⟩,
        Next := ⟨"https://horizon-testnet.stellar.org/ledgers?cursor=8589934592&limit=1&order=asc"⟩,
        Prev := ⟨"https://horizon-testnet.stellar.org/ledgers?cursor=8589934592&limit=1&order=desc"⟩ },
    Embedded := { Records := [ledgerSeq2] } }

/-- Modelled from the spec: the `notFoundResponse` problem document (its
JSON literal is not among the source files; the test asserts its title
`Resource Missing`, and §6 fixes the document's fields). -/
def notFoundProblem : Problem :=
  { Type_ := "https://stellar.org/horizon-errors/not_found",
    Title := "Resource Missing", Status := 404,
    Detail := "The resource at the url requested was not found.",
    Instance_ := "" }

/-- The original descriptor of the pagination scenario of
`TestLedgerRequestLedgers`: cursor `now`, limit 1. -/
def pagingRequest : LedgerRequest := { Cursor := "now", Limit := 1 }

/-- The mock registrations of the pagination scenario of
`TestLedgerRequestLedgers`: the initial fetch on the supplied client's
base URL, then the follow-up pages on the public test network. -/
def scenarioTable : MockTable :=
  [("GET", "https://localhost/ledgers?cursor=now&limit=1",
      .resp 200 (.page ledgersPage1)),
   ("GET", "https://horizon-testnet.stellar.org/ledgers?cursor=4294967296&limit=1&order=asc",
      .resp 200 (.page ledgersPage2)),
   ("GET", "https://horizon-testnet.stellar.org/ledgers?cursor=8589934592&limit=1&order=desc",
      .resp 200 (.page ledgersPage1))]

/-- The mock registration of the happy-path streaming scenario of
`TestLedgerRequestStreamLedgers`: cursor `1`, one frame. -/
def streamTable : MockTable :=
  [("GET", "https://localhost/ledgers?cursor=1",
      .resp 200 (.sse [ledger560339]))]

/-- The mock registration of the failing streaming scenario of
`TestLedgerRequestStreamLedgers`: status 500 on the normalized `now`
cursor, with an arbitrary frame body. -/
def streamTable500 (frames : List Ledger) : MockTable :=
  [("GET", "https://localhost/ledgers?cursor=now", .resp 500 (.sse frames))]

/-- An envelope with an empty record sequence. -/
def emptyPage : LedgersPage :=
  { Links := { Self := ⟨""⟩, Next := ⟨""⟩, Prev := ⟨""⟩ },
    Embedded := { Records := [] } }

/-- Whether a path string contains the query-string separator. -/
def hasQueryString (s : String) : Bool :=
  s.data.contains '?'

/-- Whether `pre` is a leading piece of `s`. -/
def startsWithStr (pre s : String) : Bool :=
  pre.data.isPrefixOf s.data

/-! Helper lemmas: decimal digit rendering never produces a `?`, so an
instance path never contains a query string. -/

theorem digitChar_ne_qmark : ∀ (m : Nat), Nat.digitChar m ≠ '?'
  | 0 => by decide
  | 1 => by decide
  | 2 => by decide
  | 3 => by decide
  | 4 => by decide
  | 5 => by decide
  | 6 => by decide
  | 7 => by decide
  | 8 => by decide
  | 9 => by decide
  | 10 => by decide
  | 11 => by decide
  | 12 => by decide
  | 13 => by decide
  | 14 => by decide
  | 15 => by decide
  | m + 16 => by
    have e : Nat.digitChar (m + 16) = '*' := rfl
    rw [e]
    decide

theorem toDigitsCore_ne_qmark (b : Nat) :
    ∀ (fuel n : Nat) (ds : List Char), (∀ c ∈ ds, c ≠ '?') →
      ∀ c ∈ Nat.toDigitsCore b fuel n ds, c ≠ '?'
  | 0, _, _, hds => by
    intro c hc
    exact hds c hc
  | fuel + 1, n, ds, hds => by
    intro c hc
    rw [Nat.toDigitsCore] at hc
    have hcons : ∀ x ∈ Nat.digitChar (n % b) :: ds, x ≠ '?' := by
      intro x hx
      rcases List.mem_cons.mp hx with h | h
      · exact h ▸ digitChar_ne_qmark (n % b)
      · exact hds x h
    by_cases hz : n / b = 0
    · rw [if_pos hz] at hc
      exact hcons c hc
    · rw [if_neg hz] at hc
      exact toDigitsCore_ne_qmark b fuel (n / b) _ hcons c hc

theorem natRepr_ne_qmark (n : Nat) : ∀ c ∈ (toString n).data, c ≠ '?' := by
  intro c hc
  exact toDigitsCore_ne_qmark 10 (n + 1) n [] (by intro x hx; cases hx) c hc

theorem contains_eq_false_of_ne (l : List Char) (a : Char)
    (h : ∀ c ∈ l, c ≠ a) : l.contains a = false := by
  induction l with
  | nil => rfl
  | cons x xs ih =>
    have hx : (a == x) = false := by
      have hxa := h x (List.mem_cons_self x xs)
      exact beq_eq_false_iff_ne.mpr fun e => hxa e.symm
    simp only [List.contains_cons, hx, Bool.false_or]
    exact ih fun c hc => h c (List.mem_cons_of_mem x hc)

theorem instance_path_no_query (n : Nat) :
    hasQueryString ("ledgers/" ++ toString n) = false := by
  unfold hasQueryString
  rw [String.data_append]
  apply contains_eq_false_of_ne
  intro c hc
  rcases List.mem_append.mp hc with h | h
  · exact (by decide : ∀ x ∈ "ledgers/".data, x ≠ '?') c h
  · exact natRepr_ne_qmark n c h

/-! The claim theorems. -/

/-- C1: for every request descriptor with no instance identifier and any
subset of cursor/order/limit set, `BuildUrl` succeeds and emits exactly
the explicitly set query parameters, in the fixed order cursor, then
order, then limit, so the same logical request always serializes to the
same URL string. -/
theorem claim_C1_buildurl_param_order (lr : LedgerRequest)
    (h : lr.forSequence = none) :
    lr.BuildUrl = .ok (renderEndpoint "ledgers" (queryParams lr)) ∧
    (queryParams lr).map Prod.fst =
      ["cursor", "order", "limit"].filter (paramSet lr) := by
  constructor
  · simp [LedgerRequest.BuildUrl, h]
  · by_cases hc : lr.Cursor = "" <;> by_cases ho : lr.Order = "" <;>
      by_cases hl : lr.Limit = 0 <;>
      simp [queryParams, paramSet, hc, ho, hl]

theorem claim_C1_buildurl_param_order_witness :
    LedgerRequest.BuildUrl { Cursor := "now", Order := OrderDesc } =
      .ok (renderEndpoint "ledgers"
        (queryParams { Cursor := "now", Order := OrderDesc })) ∧
    (queryParams { Cursor := "now", Order := OrderDesc }).map Prod.fst =
      ["cursor", "order", "limit"].filter
        (paramSet { Cursor := "now", Order := OrderDesc }) :=
  claim_C1_buildurl_param_order { Cursor := "now", Order := OrderDesc } rfl

/-- C4: `BuildUrl` on a descriptor whose instance identifier is set to
zero fails with `InvalidParameter`, and a detail request for sequence
zero fails the same way with no network call issued, for every client and
transport. -/
theorem claim_C4_zero_sequence_invalid (lr : LedgerRequest)
    (h : lr.forSequence = some 0) :
    lr.BuildUrl =
      .error (.invalidParameter "Invalid sequence number provided") ∧
    ∀ (c : Client) (table : MockTable),
      Client.LedgerDetail c table 0 =
        { calls := [],
          result :=
            .error (.invalidParameter "Invalid sequence number provided") } := by
  constructor
  · simp [LedgerRequest.BuildUrl, h]
  · intro c table
    rfl

theorem claim_C4_zero_sequence_invalid_witness :
    LedgerRequest.BuildUrl { forSequence := some 0 } =
      .error (.invalidParameter "Invalid sequence number provided") ∧
    ∀ (c : Client) (table : MockTable),
      Client.LedgerDetail c table 0 =
        { calls := [],
          result :=
            .error (.invalidParameter "Invalid sequence number provided") } :=
  claim_C4_zero_sequence_invalid { forSequence := some 0 } rfl

/-- C8: for every descriptor with a non-zero instance identifier,
`BuildUrl` returns the instance path `ledgers/{id}` with no error,
independent of cursor/order/limit even when they are set, and the
instance path never contains a query string. -/
theorem claim_C8_instance_path (lr : LedgerRequest) (n : Nat)
    (h : lr.forSequence = some n) (hn : n ≠ 0) :
    lr.BuildUrl = .ok ("ledgers/" ++ toString n) ∧
    hasQueryString ("ledgers/" ++ toString n) = false := by
  constructor
  · simp [LedgerRequest.BuildUrl, h, hn]
  · exact instance_path_no_query n

theorem claim_C8_instance_path_witness :
    LedgerRequest.BuildUrl
        { forSequence := some 123, Cursor := "now", Order := OrderDesc } =
      .ok ("ledgers/" ++ toString 123) ∧
    hasQueryString ("ledgers/" ++ toString 123) = false :=
  claim_C8_instance_path
    { forSequence := some 123, Cursor := "now", Order := OrderDesc } 123 rfl
    (by decide)

/-- C2: for every envelope with a non-empty record sequence, the follow-up
descriptor of `Next` has the paging token of the last record as cursor,
ascending order, and the original limit carried over unchanged; the one
of `Prev` has the paging token of the first record as cursor, descending
order, and the same limit.  On the test envelope (records
`[{paging_token:"4294967296"}]`, limit 1) `Next` issues exactly one
request, for cursor `4294967296`, order ascending, limit 1. -/
theorem claim_C2_next_prev_descriptors :
    (∀ (lr : LedgerRequest) (page : LedgersPage) (r : Ledger),
        page.Embedded.Records.getLast? = some r →
        nextDescriptor lr page =
          .ok { forSequence := none, Cursor := r.PT, Order := OrderAsc,
                Limit := lr.Limit }) ∧
    (∀ (lr : LedgerRequest) (page : LedgersPage) (r : Ledger),
        page.Embedded.Records.head? = some r →
        prevDescriptor lr page =
          .ok { forSequence := none, Cursor := r.PT, Order := OrderDesc,
                Limit := lr.Limit }) ∧
    LedgerRequest.Next pagingRequest ledgersPage1 localClient scenarioTable =
      { calls := [("GET",
          "https://horizon-testnet.stellar.org/ledgers?cursor=4294967296&order=asc&limit=1")],
        result := .ok ledgersPage2 } := by
  refine ⟨?_, ?_, by decide⟩
  · intro lr page r h
    simp [nextDescriptor, h]
  · intro lr page r h
    simp [prevDescriptor, h]

theorem claim_C2_next_prev_descriptors_witness :
    nextDescriptor pagingRequest ledgersPage1 =
      .ok { forSequence := none, Cursor := "4294967296", Order := OrderAsc,
            Limit := 1 } ∧
    prevDescriptor pagingRequest ledgersPage2 =
      .ok { forSequence := none, Cursor := "8589934592", Order := OrderDesc,
            Limit := 1 } :=
  ⟨claim_C2_next_prev_descriptors.1 pagingRequest ledgersPage1 ledgerSeq1 rfl,
   claim_C2_next_prev_descriptors.2.1 pagingRequest ledgersPage2 ledgerSeq2 rfl⟩

/-- C9: for every envelope whose record sequence is empty, `Next` and
`Prev` fail with `NoMoreResults` and issue no network request at all, for
every descriptor, client and transport. -/
theorem claim_C9_empty_records_no_request (lr : LedgerRequest)
    (client : Client) (table : MockTable) (page : LedgersPage)
    (h : page.Embedded.Records = []) :
    LedgerRequest.Next lr page client table =
      { calls := [], result := .error .noMoreResults } ∧
    LedgerRequest.Prev lr page client table =
      { calls := [], result := .error .noMoreResults } := by
  constructor
  · simp [LedgerRequest.Next, nextDescriptor, h]
  · simp [LedgerRequest.Prev, prevDescriptor, h]

theorem claim_C9_empty_records_no_request_witness :
    LedgerRequest.Next pagingRequest emptyPage localClient scenarioTable =
      { calls := [], result := .error .noMoreResults } ∧
    LedgerRequest.Prev pagingRequest emptyPage localClient scenarioTable =
      { calls := [], result := .error .noMoreResults } :=
  claim_C9_empty_records_no_request pagingRequest localClient scenarioTable
    emptyPage rfl

/-- C7: in the pagination scenario of `TestLedgerRequestLedgers`, `Next`
returns the second page, whose first record's paging token is
`8589934592`; `Prev` on it issues one request with cursor `8589934592`,
order descending and the same limit 1, and returns the original first
page (record sequence 1) — the window whose first record is the record
whose paging token the `Next` call used as its cursor (`4294967296`;
cursors are exclusive, so the record carrying the `Prev` cursor itself
lies just outside the returned window). -/
theorem claim_C7_next_prev_roundtrip :
    LedgerRequest.Next pagingRequest ledgersPage1 localClient scenarioTable =
      { calls := [("GET",
          "https://horizon-testnet.stellar.org/ledgers?cursor=4294967296&order=asc&limit=1")],
        result := .ok ledgersPage2 } ∧
    ledgersPage2.Embedded.Records.head?.map Ledger.PT = some "8589934592" ∧
    LedgerRequest.Prev pagingRequest ledgersPage2 localClient scenarioTable =
      { calls := [("GET",
          "https://horizon-testnet.stellar.org/ledgers?cursor=8589934592&order=desc&limit=1")],
        result := .ok ledgersPage1 } ∧
    ledgersPage1.Embedded.Records.head?.map Ledger.Sequence = some 1 ∧
    ledgersPage1.Embedded.Records.head?.map Ledger.PT = some "4294967296" := by
  refine ⟨by decide, rfl, by decide, rfl, rfl⟩

/-- C10: the follow-up request of `Next` is independent of the supplied
client — in particular of its configured base URL — and in the scenario
of `TestLedgerRequestLedgers` it targets
`https://horizon-testnet.stellar.org/`, not the `https://localhost/`
base URL of the client that fetched the envelope, while the original
fetch did go to `https://localhost/`. -/
theorem claim_C10_followup_ignores_client_base :
    (∀ (c₁ c₂ : Client) (table : MockTable),
        LedgerRequest.Next pagingRequest ledgersPage1 c₁ table =
          LedgerRequest.Next pagingRequest ledgersPage1 c₂ table) ∧
    (Client.Ledgers localClient scenarioTable pagingRequest).calls =
      [("GET", "https://localhost/ledgers?cursor=now&limit=1")] ∧
    (LedgerRequest.Next pagingRequest ledgersPage1 localClient
        scenarioTable).calls =
      [("GET",
        "https://horizon-testnet.stellar.org/ledgers?cursor=4294967296&order=asc&limit=1")] ∧
    startsWithStr "https://horizon-testnet.stellar.org/"
        "https://horizon-testnet.stellar.org/ledgers?cursor=4294967296&order=asc&limit=1" =
      true ∧
    startsWithStr localClient.HorizonURL
        "https://horizon-testnet.stellar.org/ledgers?cursor=4294967296&order=asc&limit=1" =
      false ∧
    localClient.HorizonURL = "https://localhost/" := by
  exact ⟨fun c₁ c₂ table => rfl, by decide, by decide, by decide, by decide,
    rfl⟩

/-- C5: if the streaming connection returns HTTP status 500,
`StreamLedgers` returns a `ServerError` carrying status 500 and the
handler is never invoked (the list of records it observed is empty), for
every handler and every frame payload of the mocked body. -/
theorem claim_C5_stream_500 (handler : Ledger → Bool)
    (frames : List Ledger) :
    Client.StreamLedgers localClient (streamTable500 frames) {} handler =
      (.error (.serverError 500 none), []) := rfl

/-- C6: if the handler cancels after receiving the one frame of the
stream (the record with sequence 560339), `StreamLedgers` returns a nil
error — cancellation is not an error condition — and the handler
observed exactly that one record. -/
theorem claim_C6_stream_cancel (handler : Ledger → Bool)
    (h : handler ledger560339 = true) :
    Client.StreamLedgers localClient streamTable { Cursor := "1" } handler =
      (.ok (), [ledger560339]) ∧
    ledger560339.Sequence = 560339 := by
  constructor
  · have e : Client.StreamLedgers localClient streamTable { Cursor := "1" }
        handler = streamLoop handler [ledger560339] := rfl
    rw [e]
    simp [streamLoop, h]
  · rfl

theorem claim_C6_stream_cancel_witness :
    Client.StreamLedgers localClient streamTable { Cursor := "1" }
        (fun _ => true) =
      (.ok (), [ledger560339]) ∧
    ledger560339.Sequence = 560339 :=
  claim_C6_stream_cancel (fun _ => true) rfl

/-- C3: for every failed call, one-shot or streaming, a non-2xx HTTP
response whose body is a problem document yields a `serverError` carrying
that document intact, a connection-level failure yields a
`transportError` carrying the transport message, and the two kinds are
distinct constructors of the error taxonomy, so callers distinguish them
programmatically rather than by message text. -/
theorem claim_C3_error_classification :
    (∀ (c : Client) (n status : Nat) (p : Problem),
        n ≠ 0 → isOkStatus status = false →
        Client.LedgerDetail c
            [("GET", c.HorizonURL ++ ("ledgers/" ++ toString n),
               .resp status (.problem p))] n =
          { calls := [("GET", c.HorizonURL ++ ("ledgers/" ++ toString n))],
            result := .error (.serverError status (some p)) }) ∧
    (∀ (c : Client) (n : Nat) (m : String),
        n ≠ 0 →
        Client.LedgerDetail c
            [("GET", c.HorizonURL ++ ("ledgers/" ++ toString n),
               .connErr m)] n =
          { calls := [("GET", c.HorizonURL ++ ("ledgers/" ++ toString n))],
            result := .error (.transportError m) }) ∧
    (∀ (handler : Ledger → Bool) (status : Nat) (body : Body),
        isOkStatus status = false →
        Client.StreamLedgers localClient
            [("GET", "https://localhost/ledgers?cursor=1",
               .resp status body)] { Cursor := "1" } handler =
          (.error (.serverError status (decodeProblem body)), [])) ∧
    (∀ (handler : Ledger → Bool) (m : String),
        Client.StreamLedgers localClient
            [("GET", "https://localhost/ledgers?cursor=1", .connErr m)]
            { Cursor := "1" } handler =
          (.error (.transportError m), [])) ∧
    (∀ p : Problem, decodeProblem (.problem p) = some p) ∧
    (∀ (status : Nat) (p : Option Problem) (m : String),
        HError.serverError status p ≠ HError.transportError m) := by
  refine ⟨?_, ?_, ?_, ?_, fun p => rfl, ?_⟩
  · intro c n status p hn hs
    simp [Client.LedgerDetail, LedgerRequest.BuildUrl, hn, lookup,
      List.find?, urlMatches, classify, hs, decodeProblem]
  · intro c n m hn
    simp [Client.LedgerDetail, LedgerRequest.BuildUrl, hn, lookup,
      List.find?, urlMatches, classify]
  · intro handler status body hs
    have e : Client.StreamLedgers localClient
        [("GET", "https://localhost/ledgers?cursor=1", .resp status body)]
        { Cursor := "1" } handler =
        if isOkStatus status then
          match body with
          | .sse frames => streamLoop handler frames
          | _ => (.error (.transportError "invalid event stream"), [])
        else (.error (.serverError status (decodeProblem body)), []) := rfl
    rw [e, hs]
    simp
  · intro handler m
    rfl
  · intro status p m h
    exact HError.noConfusion h

theorem claim_C3_error_classification_witness :
    Client.LedgerDetail localClient
        [("GET", localClient.HorizonURL ++ ("ledgers/" ++ toString 69859),
           .resp 404 (.problem notFoundProblem))] 69859 =
      { calls := [("GET",
          localClient.HorizonURL ++ ("ledgers/" ++ toString 69859))],
        result := .error (.serverError 404 (some notFoundProblem)) } ∧
    Client.LedgerDetail localClient
        [("GET", localClient.HorizonURL ++ ("ledgers/" ++ toString 69859),
           .connErr "http.Client error")] 69859 =
      { calls := [("GET",
          localClient.HorizonURL ++ ("ledgers/" ++ toString 69859))],
        result := .error (.transportError "http.Client error") } ∧
    HError.serverError 404 (some notFoundProblem) ≠
      HError.transportError "http.Client error" :=
  ⟨claim_C3_error_classification.1 localClient 69859 404 notFoundProblem
      (by decide) (by decide),
   claim_C3_error_classification.2.1 localClient 69859 "http.Client error"
      (by decide),
   claim_C3_error_classification.2.2.2.2.2 404 (some notFoundProblem)
      "http.Client error"⟩

end HorizonClient
